import Mathlib

/-!
Verification of the eDNA dashboard core (src/edna.py) against its
natural-language specification.

The embedding covers:
* the filter engine (method EDNAApp.apply_filter, lines 157-170): species
  selection via isin, district equality guarded by the "All" sentinel, and a
  date-range filter wrapped in try/except (a parse failure skips the whole
  date stage);
* the species-info enrichment path (species_info_cache, fetch_species_info,
  EDNAApp.display_species_info): a dict that only ever receives successful
  results, a per-call background fetch, and a cache-hit fast path;
* the map-marker projection (EDNAApp.show_map, lines 197-210): one circle
  marker per filtered record with radius 5 + detection_count.

Dates are modelled as integers in yyyymmdd form (only their order matters);
the outcome of pandas date parsing is modelled as an Option value, none
standing for an unparseable entry field. Coordinates are carried opaquely as
integers: no claim computes with them.
-/

/-- One mock eDNA observation row (columns of mock_df, src/edna.py lines 33-41). -/
structure Record where
  sample_id : Nat
  latitude : Int
  longitude : Int
  species : String
  district : String
  detection_count : Nat
  sample_date : Int
deriving DecidableEq

/-- The filter-panel inputs read by EDNAApp.apply_filter: the selected species
(listbox selection), the district combobox value, and the outcome of parsing
the two date entry fields (none when pd.to_datetime raises). -/
structure FilterInputs where
  species_sel : List String
  district : String
  date_from : Option Int
  date_to : Option Int
deriving DecidableEq

/-- The date-range test exactly as the try block of apply_filter leaves it:
applied inclusively on both ends when both fields parse, skipped entirely
otherwise (the except clause swallows any parse failure). -/
def dateMatch (dfrom dto : Option Int) (r : Record) : Bool :=
  match dfrom, dto with
  | some d1, some d2 => decide (d1 ≤ r.sample_date) && decide (r.sample_date ≤ d2)
  | _, _ => true

/-- EDNAApp.apply_filter, src/edna.py lines 157-168: filter by species
membership in the current selection, then by district unless the combobox
holds the "All" sentinel, then by the date range when both dates parse. -/
def apply_filter (df : List Record) (inp : FilterInputs) : List Record :=
  let df1 := df.filter fun r => inp.species_sel.contains r.species
  let df2 := if inp.district != "All" then df1.filter (fun r => r.district == inp.district) else df1
  match inp.date_from, inp.date_to with
  | some d1, some d2 => df2.filter fun r => decide (d1 ≤ r.sample_date) && decide (r.sample_date ≤ d2)
  | _, _ => df2

/-- The app state the filter handler mutates: the full record table self.df
and the currently displayed self.filtered_df. -/
structure AppState where
  df : List Record
  filtered_df : List Record
deriving DecidableEq

/-- The state effect of one apply_filter call (line 168: self.filtered_df = df).
Whatever the date stage did, the result of the earlier stages replaces the
stored filtered view unconditionally. -/
def applyFilterState (s : AppState) (inp : FilterInputs) : AppState :=
  { s with filtered_df := apply_filter s.df inp }

/-- The record-level conjunction the code actually evaluates, derived from
apply_filter: species membership is always enforced (isin over the current
selection, even when empty), district equality unless "All", and the date
range when both dates parse. -/
def satisfiesCode (inp : FilterInputs) (r : Record) : Bool :=
  inp.species_sel.contains r.species
    && (inp.district == "All" || r.district == inp.district)
    && dateMatch inp.date_from inp.date_to r

/-- Modelled from the spec wording of section 4.2: species membership is an
active constraint only if the species set is non-empty (an empty set means
match all); the other dimensions are as in the code. Used to compare the
spec reading of constraint activity with the code. -/
def satisfiesSpecCriteria (inp : FilterInputs) (r : Record) : Bool :=
  (inp.species_sel.isEmpty || inp.species_sel.contains r.species)
    && (inp.district == "All" || r.district == inp.district)
    && dateMatch inp.date_from inp.date_to r

/-- Concrete record used by counterexamples and witnesses. -/
def recA : Record :=
  { sample_id := 1, latitude := 20, longitude := 77, species := "Species A"
    district := "D1", detection_count := 3, sample_date := 20230101 }

/-- Second concrete record, a different species and date. -/
def recB : Record :=
  { sample_id := 2, latitude := 25, longitude := 80, species := "Species B"
    district := "D2", detection_count := 1, sample_date := 20230601 }

/-- Filter inputs with an empty species selection and no other constraint. -/
def inpEmptySel : FilterInputs :=
  { species_sel := [], district := "All", date_from := none, date_to := none }

/-- Filter inputs selecting Species A with no other constraint. -/
def inpAllA : FilterInputs :=
  { species_sel := ["Species A"], district := "All", date_from := none, date_to := none }

/-- Filter inputs with an inverted date range (2023-06-02 down to 2023-01-01). -/
def inpInverted : FilterInputs :=
  { species_sel := ["Species A"], district := "All"
    date_from := some 20230602, date_to := some 20230101 }

/-- C2 counterexample: with an empty species selection and no other
constraint, recA satisfies every spec-active constraint (empty set means
match all per the spec) yet is excluded from the view the code returns. -/
theorem C2_empty_selection_counterexample :
    recA ∈ [recA] ∧ satisfiesSpecCriteria inpEmptySel recA = true ∧
      recA ∉ apply_filter [recA] inpEmptySel := by
  decide

/-- C2 (amended): soundness and completeness hold for the constraint
conjunction the code evaluates, in which the species-membership constraint
is always active (an empty selection matches no record): a record of the
store is in the filtered view iff it is in the store and satisfies species
membership, district equality (unless the "All" sentinel), and the inclusive
date range (when both bounds parse). -/
theorem C2_sound_complete (df : List Record) (inp : FilterInputs) (r : Record) :
    r ∈ apply_filter df inp ↔ r ∈ df ∧ satisfiesCode inp r = true := by
  unfold apply_filter satisfiesCode dateMatch
  by_cases hd : inp.district = "All" <;>
    rcases inp.date_from with _ | d1 <;> rcases inp.date_to with _ | d2 <;>
      simp [hd, List.mem_filter, bne_iff_ne, and_assoc] <;> tauto

/-- C1 counterexample: a store with one record, an empty species selection,
district "All" and no date bound yields the empty view, not the full store:
the code's isin over an empty selection matches no record. -/
theorem C1_empty_selection_counterexample :
    apply_filter [recA] inpEmptySel = [] ∧ apply_filter [recA] inpEmptySel ≠ [recA] := by
  decide

/-- C1 (amended): the identity law holds when every record's species is among
the selected species, the district is the "All" sentinel, and the date stage
excludes no record (bounds unparseable or covering every record); an empty
species selection instead yields the empty view (match none). -/
theorem C1_identity_and_empty (df : List Record) (inp : FilterInputs) :
    ((∀ r ∈ df, inp.species_sel.contains r.species = true) → inp.district = "All" →
      (∀ r ∈ df, dateMatch inp.date_from inp.date_to r = true) → apply_filter df inp = df)
    ∧ (inp.species_sel = [] → apply_filter df inp = []) := by
  constructor
  · intro hsp hd hdate
    unfold apply_filter
    rw [List.filter_eq_self.mpr hsp]
    simp only [hd, bne_self_eq_false, Bool.false_eq_true, if_false]
    rcases hf : inp.date_from with _ | d1 <;> rcases ht : inp.date_to with _ | d2 <;>
      simp only [hf, ht]
    apply List.filter_eq_self.mpr
    intro r hr
    have h := hdate r hr
    simp only [dateMatch, hf, ht, Bool.and_eq_true, decide_eq_true_eq] at h
    simp [h.1, h.2]
  · intro h
    unfold apply_filter
    rcases inp.date_from with _ | d1 <;> rcases inp.date_to with _ | d2 <;>
      by_cases hd : inp.district = "All" <;> simp [h, hd, bne_iff_ne]

/-- C1 witness: identity at a concrete store with its species selected, and
the empty view at an empty selection. -/
theorem C1_witness :
    apply_filter [recA] inpAllA = [recA] ∧ apply_filter [recA] inpEmptySel = [] :=
  ⟨(C1_identity_and_empty [recA] inpAllA).1 (by decide) (by decide) (by decide),
   (C1_identity_and_empty [recA] inpEmptySel).2 rfl⟩

/-- C3: apply_filter only ever runs list filters, so its result is a
subsequence of the store: records keep their original relative order. -/
theorem C3_preserves_order (df : List Record) (inp : FilterInputs) :
    (apply_filter df inp).Sublist df := by
  unfold apply_filter
  rcases inp.date_from with _ | d1 <;> rcases inp.date_to with _ | d2 <;>
    by_cases hd : inp.district = "All" <;>
      simp only [hd, bne_self_eq_false, Bool.false_eq_true, if_false, bne_iff_ne, ne_eq,
        not_false_eq_true, if_true] <;>
      first
      | exact List.filter_sublist _
      | exact (List.filter_sublist _).trans (List.filter_sublist _)
      | exact ((List.filter_sublist _).trans (List.filter_sublist _)).trans
          (List.filter_sublist _)

/-- C4 counterexample: with the inverted range dateFrom 2023-06-02,
dateTo 2023-01-01, the call returns the ordinary empty view (the same record
passes when the date bounds are absent), with no error outcome of any kind:
apply_filter in the source has no validation-error path. -/
theorem C4_inverted_range_counterexample :
    apply_filter [recA] inpInverted = [] ∧ apply_filter [recA] inpAllA = [recA] := by
  decide

/-- C4 (amended): inverted date bounds are not rejected and not corrected;
the range test is applied as-is, and since no date satisfies both bounds the
resulting filtered view is empty. -/
theorem C4_inverted_range_empty (df : List Record) (inp : FilterInputs) (d1 d2 : Int)
    (h1 : inp.date_from = some d1) (h2 : inp.date_to = some d2) (hlt : d2 < d1) :
    apply_filter df inp = [] := by
  unfold apply_filter
  simp only [h1, h2]
  apply List.filter_eq_nil_iff.mpr
  intro r hr
  simp only [Bool.and_eq_true, decide_eq_true_eq, not_and]
  intro hle hge
  omega

/-- C4 witness: the amended statement at the concrete inverted range. -/
theorem C4_witness : apply_filter [recA] inpInverted = [] :=
  C4_inverted_range_empty [recA] inpInverted 20230602 20230101 rfl rfl (by decide)

/-- App state before the C5 counterexample call: the store holds recA and
recB and the previously stored filtered view is the singleton recA. -/
def s0 : AppState := { df := [recA, recB], filtered_df := [recA] }

/-- Filter inputs whose date-from field failed to parse (none) and whose
species selection picks Species B. -/
def inpB_badDate : FilterInputs :=
  { species_sel := ["Species B"], district := "All", date_from := none, date_to := some 20231231 }

/-- C5 counterexample: a call with an unparseable date-from field does not
keep the prior filtered view; it overwrites the stored view with the result
of the species and district stages of the current call. -/
theorem C5_stale_state_counterexample :
    (applyFilterState s0 inpB_badDate).filtered_df = [recB] ∧
      (applyFilterState s0 inpB_badDate).filtered_df ≠ s0.filtered_df := by
  decide

/-- C5 (amended): on malformed date input only the date constraint is
dropped (the except clause skips the date stage); the stored filtered view
is replaced by the species and district filters of the current call, not
kept unchanged. -/
theorem C5_bad_date_drops_date_only (s : AppState) (inp : FilterInputs)
    (h : inp.date_from = none ∨ inp.date_to = none) :
    (applyFilterState s inp).filtered_df =
      apply_filter s.df
        { species_sel := inp.species_sel, district := inp.district
          date_from := none, date_to := none } := by
  unfold applyFilterState apply_filter
  rcases h with h | h <;> rcases hf : inp.date_from with _ | d1 <;>
    rcases ht : inp.date_to with _ | d2 <;> simp_all

/-- C5 witness: the amended statement at the concrete bad-date call. -/
theorem C5_witness :
    (applyFilterState s0 inpB_badDate).filtered_df =
      apply_filter s0.df
        { species_sel := ["Species B"], district := "All"
          date_from := none, date_to := none } :=
  C5_bad_date_drops_date_only s0 inpB_badDate (Or.inl rfl)

/-- The species summary the success path builds from the JSON body
(fetch_species_info, src/edna.py lines 53-62): title, extract and optional
thumbnail URL. -/
structure SpeciesInfo where
  title : String
  desc : String
  img : Option String
deriving DecidableEq

/-- Outcome of one background fetch thread: a 200 response with a parsed
body, or anything else (non-200 status or a raised exception), which the
code treats uniformly by calling the callback with None. -/
inductive FetchResult where
  | success : SpeciesInfo → FetchResult
  | failure : FetchResult
deriving DecidableEq

/-- Observable state of the enrichment path: the species_info_cache dict
(an association list keyed by species, only ever written on success), the
multiset of fetch threads started but not yet finished (one entry per
fetch_species_info call, recorded by species key), and the log of callback
invocations so far (some info for a success delivery, none for the failure
sentinel). -/
structure CacheState where
  cache : List (String × SpeciesInfo)
  inFlight : List String
  callbacks : List (Option SpeciesInfo)
deriving DecidableEq

/-- Dict membership and read combined: the first binding for the key, as the
checks species in species_info_cache / species_info_cache[species]. -/
def cacheLookup : List (String × SpeciesInfo) → String → Option SpeciesInfo
  | [], _ => none
  | (k, v) :: rest, key => if k == key then some v else cacheLookup rest key

/-- Dict assignment species_info_cache[species] = info: overwrite the
existing binding or append a new one. -/
def cacheInsert : List (String × SpeciesInfo) → String → SpeciesInfo → List (String × SpeciesInfo)
  | [], key, v => [(key, v)]
  | (k, w) :: rest, key, v =>
      if k == key then (key, v) :: rest else (k, w) :: cacheInsert rest key v

/-- EDNAApp.display_species_info, src/edna.py lines 253-265, reduced to its
cache effect: on a cache hit the stored info is delivered immediately in the
caller's context and nothing else happens; on a miss fetch_species_info is
called, which starts a new background fetch thread unconditionally. -/
def request (s : CacheState) (key : String) : CacheState :=
  match cacheLookup s.cache key with
  | some info => { s with callbacks := s.callbacks ++ [some info] }
  | none => { s with inFlight := s.inFlight ++ [key] }

/-- Completion of one background fetch thread (the run closure of
fetch_species_info, src/edna.py lines 47-66): on a 200 response the callback
receives the parsed info and the same info is then written to the cache; on
any other outcome the callback receives None and the cache is not touched. -/
def resolve (s : CacheState) (key : String) (res : FetchResult) : CacheState :=
  match res with
  | .success info =>
      { cache := cacheInsert s.cache key info
        inFlight := s.inFlight.erase key
        callbacks := s.callbacks ++ [some info] }
  | .failure =>
      { s with
        inFlight := s.inFlight.erase key
        callbacks := s.callbacks ++ [none] }

/-- n successive request calls for the same key with no resolution in
between. -/
def requestN (s : CacheState) (key : String) : Nat → CacheState
  | 0 => s
  | n + 1 => requestN (request s key) key n

/-- The empty starting state: species_info_cache = {} and no thread started. -/
def initCache : CacheState := { cache := [], inFlight := [], callbacks := [] }

/-- A concrete species summary for counterexamples and witnesses. -/
def infoA : SpeciesInfo := { title := "Species A", desc := "A mock species.", img := none }

/-- C6 counterexample: two requests for Species A before the first fetch
resolves put two fetches for that key in flight at once, violating the
single-flight claim; the second caller is not recorded as a waiter on the
first fetch. -/
theorem C6_single_flight_counterexample :
    (request (request initCache "Species A") "Species A").inFlight =
      ["Species A", "Species A"] := by
  decide

/-- C6 (amended): there is no single-flight de-duplication: every request on
a key with no cache entry starts its own fetch, so n requests before any
resolution leave n fetches for that key in flight, and no callback fires
until the fetches themselves complete (each with its own result). -/
theorem C6_requests_start_fetches (s : CacheState) (key : String)
    (h : cacheLookup s.cache key = none) (n : Nat) :
    (requestN s key n).inFlight = s.inFlight ++ List.replicate n key ∧
      (requestN s key n).callbacks = s.callbacks := by
  induction n generalizing s with
  | zero => simp [requestN]
  | succ n ih =>
      have hreq : request s key = { s with inFlight := s.inFlight ++ [key] } := by
        unfold request
        rw [h]
      have hcache : (request s key).cache = s.cache := by rw [hreq]
      have := ih (request s key) (by rw [hcache]; exact h)
      rw [requestN, this.1, this.2, hreq]
      simp [List.replicate_succ]

/-- C6 witness: three requests from the empty state leave three fetches in
flight and no callback delivered. -/
theorem C6_witness :
    (requestN initCache "Species A" 3).inFlight = List.replicate 3 "Species A" ∧
      (requestN initCache "Species A" 3).callbacks = [] := by
  have h := C6_requests_start_fetches initCache "Species A" rfl 3
  simpa [initCache] using h

/-- C7 counterexample: resolving the only fetch for Species A as a failure
(for instance an HTTP 404) leaves the cache with no entry at all for the
key - there is no Failed cache state in the code - while the callback does
receive the None sentinel. -/
theorem C7_failed_state_counterexample :
    (resolve (request initCache "Species A") "Species A" .failure).cache = [] ∧
      (resolve (request initCache "Species A") "Species A" .failure).callbacks = [none] := by
  decide

/-- C7 (amended): on any failed fetch the callback of that fetch is invoked
with the None sentinel (never an exception), and the cache is left exactly
as it was: no Failed entry - no entry of any kind - is recorded. -/
theorem C7_failure_sentinel (s : CacheState) (key : String) :
    (resolve s key .failure).cache = s.cache ∧
      (resolve s key .failure).callbacks = s.callbacks ++ [none] :=
  ⟨rfl, rfl⟩

/-- C8: on a cache hit the request delivers the cached info immediately and
synchronously (the callback log grows by exactly that value) and changes
nothing else: no new fetch starts and the cache is untouched. -/
theorem C8_cache_hit_no_fetch (s : CacheState) (key : String) (info : SpeciesInfo)
    (h : cacheLookup s.cache key = some info) :
    request s key = { s with callbacks := s.callbacks ++ [some info] } := by
  unfold request
  rw [h]

/-- C8 witness: a hit on a one-entry cache delivers the stored info and
starts no fetch. -/
theorem C8_witness :
    request { cache := [("Species A", infoA)], inFlight := [], callbacks := [] } "Species A" =
      { cache := [("Species A", infoA)], inFlight := [], callbacks := [some infoA] } :=
  C8_cache_hit_no_fetch
    { cache := [("Species A", infoA)], inFlight := [], callbacks := [] }
    "Species A" infoA (by decide)

/-- C10: a failed fetch writes nothing: the cache map is unchanged, and if
the key had no entry before, the very next request for it finds no entry
and unconditionally starts a new fetch. -/
theorem C10_failure_leaves_cache_unchanged (s : CacheState) (key : String) :
    (resolve s key .failure).cache = s.cache ∧
      (cacheLookup s.cache key = none →
        (request (resolve s key .failure) key).inFlight =
          (resolve s key .failure).inFlight ++ [key]) := by
  refine ⟨rfl, fun h => ?_⟩
  unfold request
  have hc : (resolve s key .failure).cache = s.cache := rfl
  rw [hc, h]

/-- C10 witness: after a failed fetch from the empty state, the next request
for the same key starts a fresh fetch. -/
theorem C10_witness :
    (resolve initCache "Species A" .failure).cache = initCache.cache ∧
      (request (resolve initCache "Species A" .failure) "Species A").inFlight =
        (resolve initCache "Species A" .failure).inFlight ++ ["Species A"] :=
  ⟨(C10_failure_leaves_cache_unchanged initCache "Species A").1,
   (C10_failure_leaves_cache_unchanged initCache "Species A").2 rfl⟩

/-- One folium CircleMarker as built in EDNAApp.show_map, src/edna.py lines
198-210: position, radius, popup text and the species tooltip. -/
structure Marker where
  lat : Int
  lon : Int
  radius : Nat
  popup : String
  tooltip : String
deriving DecidableEq

/-- The fixed base radius of show_map's CircleMarker (line 200: radius = 5 +
detection_count). -/
def baseRadius : Nat := 5

/-- The popup HTML built from one row alone (show_map, lines 203-207). -/
def popupText (r : Record) : String :=
  "<b>Sample:</b> " ++ toString r.sample_id ++
    "<br><b>Species:</b> " ++ r.species ++
    "<br><b>District:</b> " ++ r.district ++
    "<br><b>Date:</b> " ++ toString r.sample_date ++
    "<br><b>Detections:</b> " ++ toString r.detection_count

/-- The marker show_map derives from one filtered row. -/
def markerOf (r : Record) : Marker :=
  { lat := r.latitude, lon := r.longitude
    radius := baseRadius + r.detection_count
    popup := popupText r, tooltip := r.species }

/-- The marker set of EDNAApp.show_map: one marker per record of the current
filtered view, in view order. -/
def show_map_markers (view : List Record) : List Marker :=
  view.map markerOf

/-- C9: every record of a filtered view yields a marker in the derived
marker set whose radius is the base radius plus the record's detection count
(linear scaling), and which carries the record's latitude, longitude, popup
text built from that record alone, and its species as tooltip. -/
theorem C9_marker_fields (view : List Record) (r : Record) (h : r ∈ view) :
    ∃ m ∈ show_map_markers view,
      m.radius = baseRadius + r.detection_count ∧
        m.lat = r.latitude ∧ m.lon = r.longitude ∧
          m.popup = popupText r ∧ m.tooltip = r.species :=
  ⟨markerOf r, List.mem_map_of_mem markerOf h, rfl, rfl, rfl, rfl, rfl⟩

/-- C9 witness: the marker of recA in the singleton view. -/
theorem C9_witness :
    ∃ m ∈ show_map_markers [recA],
      m.radius = baseRadius + recA.detection_count ∧
        m.lat = recA.latitude ∧ m.lon = recA.longitude ∧
          m.popup = popupText recA ∧ m.tooltip = recA.species :=
  C9_marker_fields [recA] recA (List.mem_singleton.mpr rfl)
